import Mathlib

/-!
Verification development for the SVG recoloring engine of the
icon-paint-bucket repository (src/src/utils/colorMapper.js).

The JavaScript source is shallowly embedded over `String`/`List Char`:

* each JS helper (`normalizeColor`, `shouldPreserve`, `getColorRole`,
  `parseColorToRgb`, `isChromatic`, `isDarkColor`, `replaceColor`,
  `processInlineStyle`, `recolorSvg`) becomes a computable Lean function
  of the same name;
* the handful of fixed regular expressions used by `recolorSvg` are
  embedded as explicit left-to-right scanners with the exact semantics of
  a JS global `String.replace`: the leftmost match is found, never
  overlapping a previous one, the replacement text is emitted without
  being rescanned by the same pass, and on a failed match the scan
  advances one character;
* `Date.now()`/`Math.random()` (used only to build the gradient id) are
  modelled by an explicit `freshId` argument to `recolorSvg`;
* JS `parseInt(s, 16)` returns `Option Nat` (`none` models `NaN`, a
  partial parse of a leading digit run models the JS prefix parse); every
  comparison against a possibly-`NaN` number is `false`, as in JS;
* the luminance test `0.299*r + 0.587*g + 0.114*b < 80` is embedded
  exactly over integers as `299*r + 587*g + 114*b < 80000` (float
  rounding could only matter on the exact threshold, which no source
  color table entry sits on);
* all color tokens and patterns in the source are ASCII, so the embedded
  case folding handles the ASCII range.
-/

set_option maxRecDepth 65536
set_option maxHeartbeats 2000000

/-- JS whitespace (the ASCII part of the regexp class backslash-s). -/
def isJsSpace (c : Char) : Bool :=
  c = (' ') || c = (Char.ofNat 9) || c = (Char.ofNat 10) ||
  c = (Char.ofNat 11) || c = (Char.ofNat 12) || c = (Char.ofNat 13)

/-- ASCII lower-casing, as `String.prototype.toLowerCase` acts on ASCII. -/
def lcChar (c : Char) : Char :=
  if 65 ≤ c.toNat ∧ c.toNat ≤ 90 then Char.ofNat (c.toNat + 32) else c

/-- The single-quote character (written by code point to keep sources plain). -/
def squote : Char := Char.ofNat 39

/-- Characters that end the value class of the quoted-attribute regexps. -/
def isQuote (c : Char) : Bool := c = ('"') || c = squote

/-- JS `String.prototype.trim` on ASCII data. -/
def jsTrim (cs : List Char) : List Char :=
  ((cs.dropWhile isJsSpace).reverse.dropWhile isJsSpace).reverse

/-- Strip `pat` from the front of `cs` exactly (case-sensitively). -/
def dropExact : List Char → List Char → Option (List Char)
  | [], cs => some cs
  | _ :: _, [] => none
  | p :: ps, c :: cs => if c = p then dropExact ps cs else none

/-- Strip `pat` from the front of `cs` case-insensitively (regexp flag i),
returning the original characters that were consumed together with the rest. -/
def stripCI : List Char → List Char → Option (List Char × List Char)
  | [], cs => some ([], cs)
  | _ :: _, [] => none
  | p :: ps, c :: cs =>
    if lcChar c = lcChar p then
      (stripCI ps cs).map (fun r => (c :: r.1, r.2))
    else none

/-- Leftmost case-sensitive occurrence of `pat`: split into the part before
the match and the part after it (JS `String.replace` with a string pattern). -/
def findSplitAux (pat : List Char) : Nat → List Char → Option (List Char × List Char)
  | fuel, cs =>
    match dropExact pat cs with
    | some rest => some ([], rest)
    | none =>
      match fuel, cs with
      | Nat.succ f, c :: cs2 => (findSplitAux pat f cs2).map (fun r => (c :: r.1, r.2))
      | _, _ => none

/-- Leftmost case-sensitive occurrence of `pat` in `s`. -/
def findSplit (pat s : List Char) : Option (List Char × List Char) :=
  findSplitAux pat s.length s

/-- JS `str.replace(pat, repl)` with plain-string `pat`: first occurrence only. -/
def replaceFirst (s pat repl : List Char) : List Char :=
  match findSplit pat s with
  | some (before, rest) => before ++ repl ++ rest
  | none => s

/-- Leftmost case-insensitive occurrence of `pat`: the part before, the
matched original characters, and the rest (used for lazy closing-tag search). -/
def findSplitCI (pat : List Char) : Nat → List Char → Option (List Char × List Char × List Char)
  | fuel, cs =>
    match stripCI pat cs with
    | some (m, rest) => some ([], m, rest)
    | none =>
      match fuel, cs with
      | Nat.succ f, c :: cs2 =>
        (findSplitCI pat f cs2).map (fun r => (c :: r.1, r.2.1, r.2.2))
      | _, _ => none

/-- Generic first-match search: try the matcher at every position from the
left; return the text before the match and the match data. -/
def scanFirstAux {α : Type} (m : List Char → Option α) : Nat → List Char → Option (List Char × α)
  | fuel, cs =>
    match m cs with
    | some a => some ([], a)
    | none =>
      match fuel, cs with
      | Nat.succ f, c :: cs2 => (scanFirstAux m f cs2).map (fun p => (c :: p.1, p.2))
      | _, _ => none

/-- Generic global-replace scan, the semantics of JS `String.replace` with a
`g` regexp whose matches are nonempty: at each position try the matcher; on a
match emit its replacement (never rescanned by this pass) and continue after
the consumed text; otherwise emit the character and advance by one. -/
def scanAll (m : List Char → Option (List Char × List Char)) : Nat → List Char → List Char
  | 0, cs => cs
  | Nat.succ _, [] => []
  | Nat.succ fuel, c :: cs =>
    match m (c :: cs) with
    | some (out, rest) => out ++ scanAll m fuel rest
    | none => c :: scanAll m fuel cs

/-- Number of non-overlapping case-sensitive occurrences of `pat` in `s`,
counted by a single left-to-right scan. -/
def countSubstrAux (pat : List Char) : Nat → List Char → Nat
  | 0, _ => 0
  | Nat.succ _, [] => 0
  | Nat.succ fuel, c :: cs =>
    match dropExact pat (c :: cs) with
    | some rest => 1 + countSubstrAux pat fuel rest
    | none => countSubstrAux pat fuel cs

/-- Number of non-overlapping occurrences of `pat` in `s`. -/
def countSubstr (s pat : String) : Nat := countSubstrAux pat.data s.data.length s.data

/-- Case-insensitive substring test. -/
def containsCI (hay pat : List Char) : Bool :=
  (findSplitCI pat hay.length hay).isSome

/- ------------------------------------------------------------------ -/
/- Data of colorMapper.js                                              -/
/- ------------------------------------------------------------------ -/

/-- PRESERVED_COLORS from colorMapper.js: colors never rewritten. -/
def PRESERVED_COLORS : List String :=
  [("white"), ("#fff"), ("#ffffff"), ("none"), ("transparent"),
   ("rgb(255, 255, 255)"), ("rgb(255,255,255)")]

/-- The role tags of COLOR_MAPPINGS. -/
inductive Role where
  | primary
  | secondary
  | accent
deriving DecidableEq, Repr

/-- COLOR_MAPPINGS.primary from colorMapper.js. -/
def primaryColors : List String :=
  [("#000"), ("#000000"), ("black"), ("#333"), ("#333333"), ("#111"),
   ("#111111"), ("#222"), ("#222222"), ("rgb(0, 0, 0)"), ("rgb(0,0,0)"),
   ("rgb(51, 51, 51)"), ("rgb(51,51,51)")]

/-- COLOR_MAPPINGS.secondary from colorMapper.js. -/
def secondaryColors : List String :=
  [("#666"), ("#666666"), ("#808080"), ("gray"), ("grey"), ("#777"),
   ("#777777"), ("#888"), ("#888888"), ("#999"), ("#999999"),
   ("rgb(128, 128, 128)"), ("rgb(128,128,128)"), ("rgb(102, 102, 102)"),
   ("rgb(102,102,102)")]

/-- COLOR_MAPPINGS.accent from colorMapper.js. -/
def accentColors : List String :=
  [("#ccc"), ("#cccccc"), ("#ddd"), ("#dddddd"), ("#eee"), ("#eeeeee"),
   ("#aaa"), ("#aaaaaa"), ("#bbb"), ("#bbbbbb"), ("lightgray"),
   ("lightgrey"), ("silver"), ("rgb(204, 204, 204)"), ("rgb(204,204,204)")]

/-- COLOR_MAPPINGS in `Object.entries` order: primary, secondary, accent. -/
def COLOR_MAPPINGS : List (Role × List String) :=
  [(Role.primary, primaryColors), (Role.secondary, secondaryColors),
   (Role.accent, accentColors)]

/-- The flat (role, color) pairs in the iteration order of the CSS pass. -/
def rolePairs : List (Role × String) :=
  COLOR_MAPPINGS.flatMap (fun rc => rc.2.map (fun c => (rc.1, c)))

/-- DUOTONE_OUTLINE constant of colorMapper.js. -/
def DUOTONE_OUTLINE : String := "#2D2D2D"

/-- The brand palette argument; `""` models an absent (falsy) field. -/
structure Brand where
  primary : String
  secondary : String
  accent : String
deriving DecidableEq, Repr

/- ------------------------------------------------------------------ -/
/- Color classifier                                                    -/
/- ------------------------------------------------------------------ -/

/-- normalizeColor: lower-case, trim, and remove all whitespace (trimming
is subsumed by removing every whitespace character). -/
def normalizeColor (color : String) : String :=
  String.mk ((color.data.map lcChar).filter (fun c => !isJsSpace c))

/-- shouldPreserve: the normalized token equals a normalized preserved entry. -/
def shouldPreserve (color : String) : Bool :=
  PRESERVED_COLORS.any (fun p => normalizeColor p == normalizeColor color)

/-- getColorRole: first role whose entry list contains the normalized token. -/
def getColorRole (color : String) : Option Role :=
  (COLOR_MAPPINGS.find? (fun rc =>
      rc.2.any (fun c => normalizeColor c == normalizeColor color))).map (fun rc => rc.1)

/-- Hexadecimal digit (both cases, as `parseInt(-, 16)` accepts). -/
def isHexDigitChar (c : Char) : Bool :=
  c.isDigit || (97 ≤ c.toNat && c.toNat ≤ 102) || (65 ≤ c.toNat && c.toNat ≤ 70)

/-- Numeric value of a hex digit. -/
def hexVal (c : Char) : Nat :=
  if c.isDigit then c.toNat - 48
  else if 97 ≤ c.toNat then c.toNat - 87
  else c.toNat - 55

/-- JS `parseInt(s, 16)`: skip an optional `0x`, parse the longest leading
hex-digit run; `none` models `NaN` (no digits at all). -/
def jsParseInt16 (cs : List Char) : Option Nat :=
  let cs2 := match cs with
    | '0' :: c :: rest => if lcChar c = ('x') then rest else cs
    | _ => cs
  let ds := cs2.takeWhile isHexDigitChar
  if ds.isEmpty then none
  else some (ds.foldl (fun a c => a * 16 + hexVal c) 0)

/-- Digits of a decimal run to a number (`parseInt(s, 10)` on a digit run). -/
def decVal (ds : List Char) : Nat := ds.foldl (fun a c => a * 10 + (c.toNat - 48)) 0

/-- Matcher for the unanchored regexp `rgb\((\d+),(\d+),(\d+)\)` at the head
of the (already normalized, whitespace-free, lower-case) input. -/
def matchRgbAt (cs : List Char) : Option (Nat × Nat × Nat) :=
  match dropExact ("rgb(").data cs with
  | none => none
  | some r1 =>
    let d1 := r1.takeWhile Char.isDigit
    if d1.isEmpty then none
    else
      match r1.drop d1.length with
      | ',' :: r2 =>
        let d2 := r2.takeWhile Char.isDigit
        if d2.isEmpty then none
        else
          match r2.drop d2.length with
          | ',' :: r3 =>
            let d3 := r3.takeWhile Char.isDigit
            if d3.isEmpty then none
            else
              match r3.drop d3.length with
              | ')' :: _ => some (decVal d1, decVal d2, decVal d3)
              | _ => none
          | _ => none
      | _ => none

/-- First match of `rgb\((\d+),(\d+),(\d+)\)` anywhere in the input. -/
def findRgb (cs : List Char) : Option (Nat × Nat × Nat) :=
  (scanFirstAux matchRgbAt cs.length cs).map (fun p => p.2)

/-- parseColorToRgb: hex (3 digits doubled, then 6 digits via `parseInt`)
with fall-through to the unanchored `rgb()` match; `none` is JS `null`.
A channel that is `none` models a `NaN` component from `parseInt`. -/
def parseColorToRgb (color : String) : Option (Option Nat × Option Nat × Option Nat) :=
  if color = ("") then none
  else
    let n := (normalizeColor color).data
    let hexCase : Option (Option Nat × Option Nat × Option Nat) :=
      match n with
      | '#' :: hexRest =>
        let hex := if hexRest.length = 3 then hexRest.flatMap (fun c => [c, c]) else hexRest
        if hex.length = 6 then
          some (jsParseInt16 (hex.take 2), jsParseInt16 ((hex.drop 2).take 2),
                jsParseInt16 (hex.drop 4))
        else none
      | _ => none
    match hexCase with
    | some v => some v
    | none =>
      match findRgb n with
      | some (r, g, b) => some (some r, some g, some b)
      | none => none

/-- Distance of two naturals (the `Math.abs` of the channel difference). -/
def natDist (a b : Nat) : Nat := max a b - min a b

/-- isChromatic: max pairwise channel difference exceeds 10; any comparison
involving a `NaN` channel is false, as in JS. -/
def isChromatic (color : String) : Bool :=
  match parseColorToRgb color with
  | none => false
  | some (r, g, b) =>
    match r, g, b with
    | some r, some g, some b =>
      decide (10 < max (natDist r g) (max (natDist g b) (natDist r b)))
    | _, _, _ => false

/-- isDarkColor: luminance `0.299 r + 0.587 g + 0.114 b < 80`, embedded
exactly over integers (scaled by 1000); false on any `NaN` channel. -/
def isDarkColor (color : String) : Bool :=
  match parseColorToRgb color with
  | none => false
  | some (some r, some g, some b) => decide (299 * r + 587 * g + 114 * b < 80000)
  | some _ => false

/- ------------------------------------------------------------------ -/
/- Role resolver (replaceColor)                                        -/
/- ------------------------------------------------------------------ -/

/-- Truthiness of the JS `gradientId` argument (`null` or `""` are falsy). -/
def gidTruthy (g : Option String) : Bool :=
  match g with
  | none => false
  | some s => !(s == (""))

/-- The duotone branch of replaceColor (role lookup already done outside). -/
def duotoneResolve (color : String) (brand : Brand) (mode : String) : String :=
  let accentColor := if mode = ("duo-primary") then brand.primary else brand.secondary
  match getColorRole color with
  | some Role.primary => DUOTONE_OUTLINE
  | some Role.secondary => accentColor
  | some Role.accent => accentColor
  | none =>
    if isChromatic color then accentColor
    else if isDarkColor color then DUOTONE_OUTLINE
    else accentColor

/-- The standard-modes branch of replaceColor, with the JS fall-through when
`brand.secondary`/`brand.accent` is falsy. -/
def standardResolve (color : String) (brand : Brand) (mode : String) (gid : Option String) : String :=
  let roleResult : Option String :=
    match getColorRole color with
    | some Role.primary =>
      some (if mode = ("gradient") ∧ gidTruthy gid then
              ("url(#") ++ gid.getD ("") ++ (")")
            else if mode = ("secondary") then brand.secondary
            else brand.primary)
    | some Role.secondary => if brand.secondary = ("") then none else some brand.secondary
    | some Role.accent => if brand.accent = ("") then none else some brand.accent
    | none => none
  match roleResult with
  | some s => s
  | none =>
    if isChromatic color then
      if mode = ("secondary") then brand.secondary else brand.primary
    else color

/-- replaceColor from colorMapper.js. -/
def replaceColor (color : String) (brand : Brand) (mode : String) (gid : Option String) : String :=
  if color = ("") ∨ shouldPreserve color then color
  else if mode = ("duo-primary") ∨ mode = ("duo-secondary") then
    duotoneResolve color brand mode
  else standardResolve color brand mode gid

/- ------------------------------------------------------------------ -/
/- Markup rewriter (recolorSvg)                                        -/
/- ------------------------------------------------------------------ -/

/-- Matcher at one position for the regexp
`(name)\s*=\s*["']([^"']+)["']` with flags `gi` (the pattern of both the
attribute passes and the inline-style attribute pass): the attribute name
case-insensitively, optional whitespace around `=`, either quote opening,
a nonempty run of non-quote characters, either quote closing.  Returns the
captured original name characters, the captured value, and the rest. -/
def matchNameQuoted (name : List Char) (cs : List Char) : Option (List Char × List Char × List Char) :=
  match stripCI name cs with
  | none => none
  | some (cap, r1) =>
    match r1.dropWhile isJsSpace with
    | '=' :: r3 =>
      match r3.dropWhile isJsSpace with
      | q1 :: r5 =>
        if isQuote q1 then
          let v := r5.takeWhile (fun c => !isQuote c)
          match r5.dropWhile (fun c => !isQuote c) with
          | q2 :: r7 =>
            if v.isEmpty then none
            else if isQuote q2 then some (cap, v, r7) else none
          | [] => none
        else none
      | [] => none
    | _ => none

/-- One attribute pass of recolorSvg (`fill`, `stroke`, `stop-color`): the
replacement is `attribute="newColor"` — captured name, always double
quotes, whitespace around `=` dropped. -/
def attrPass (name : String) (brand : Brand) (mode : String) (gid : Option String) (s : List Char) : List Char :=
  scanAll (fun cs =>
      (matchNameQuoted name.data cs).map (fun r =>
        (r.1 ++ ("=\"").data ++ (replaceColor (String.mk r.2.1) brand mode gid).data ++ [('"')],
         r.2.2)))
    s.length s

/-- Matcher at one position for one inline-style property pass, the regexp
`(prop)\s*:\s*([^;]+)` with flags `gi`: the property name
case-insensitively, whitespace, `:`, then the greedy nonempty value run up
to the next `;`.  The backslash-s-star before the value backtracks so that
the value keeps at least one character even when it is all whitespace.
Returns the emitted replacement `property:newColor` (captured name, value
trimmed then resolved through `f`) and the rest. -/
def matchPropDecl (prop : List Char) (f : List Char → List Char) (cs : List Char) : Option (List Char × List Char) :=
  match stripCI prop cs with
  | none => none
  | some (cap, r1) =>
    match r1.dropWhile isJsSpace with
    | ':' :: r3 =>
      let t := r3.takeWhile (fun c => !(c = (';')))
      if t.isEmpty then none
      else
        let w := min (t.takeWhile isJsSpace).length (t.length - 1)
        some (cap ++ (':') :: f (t.drop w), r3.drop t.length)
    | _ => none

/-- One property pass of processInlineStyle. -/
def stylePropPass (prop : String) (brand : Brand) (mode : String) (gid : Option String) (s : List Char) : List Char :=
  scanAll
    (matchPropDecl prop.data
      (fun v => (replaceColor (String.mk (jsTrim v)) brand mode gid).data))
    s.length s

/-- The inline-style property list, in source order. -/
def colorProps : List String :=
  [("fill"), ("stroke"), ("stop-color"), ("color"), ("background"),
   ("background-color")]

/-- processInlineStyle from colorMapper.js: the six property passes run
sequentially over the style text. -/
def processInlineStyle (style : String) (brand : Brand) (mode : String) (gid : Option String) : String :=
  if style = ("") then style
  else String.mk (colorProps.foldl (fun s prop => stylePropPass prop brand mode gid s) style.data)

/-- The `style="..."` attribute pass: the replacement is
`style="newStyle"` with a literal lower-case name and double quotes. -/
def styleAttrPass (brand : Brand) (mode : String) (gid : Option String) (s : List Char) : List Char :=
  scanAll (fun cs =>
      (matchNameQuoted ("style").data cs).map (fun r =>
        (("style=\"").data ++ (processInlineStyle (String.mk r.2.1) brand mode gid).data ++ [('"')],
         r.2.2)))
    s.length s

/-- Case-insensitive global literal replacement: the regexp built from an
escaped color string with flags `gi` (one role-color pass of the CSS step). -/
def replaceAllCI (pat repl : List Char) (s : List Char) : List Char :=
  scanAll (fun cs => (stripCI pat cs).map (fun r => (repl, r.2))) s.length s

/-- The replacement text chosen for a role color inside a `<style>` block
(lines 357-379 of colorMapper.js). -/
def cssRoleReplacement (role : Role) (brand : Brand) (mode : String) (gid : Option String) : String :=
  if mode = ("duo-primary") ∨ mode = ("duo-secondary") then
    let accentColor := if mode = ("duo-primary") then brand.primary else brand.secondary
    if role = Role.primary then DUOTONE_OUTLINE else accentColor
  else if role = Role.primary then
    if mode = ("gradient") ∧ gidTruthy gid then ("url(#") ++ gid.getD ("") ++ (")")
    else if mode = ("secondary") then brand.secondary
    else brand.primary
  else if role = Role.secondary then brand.secondary
  else brand.accent

/-- Word characters for the regexp word-boundary in the hex catch-all. -/
def isWordChar (c : Char) : Bool := c.isAlphanum || c = ('_')

/-- The word boundary after the last matched hex digit. -/
def hexBoundary : List Char → Bool
  | [] => true
  | c :: _ => !isWordChar c

/-- Matcher at one position for the CSS hex catch-all regexp
`#([0-9a-fA-F]{3}){1,2}\b` with flag `g`: greedy, so six digits are tried
before three; returns the matched literal and the rest. -/
def matchHex (cs : List Char) : Option (List Char × List Char) :=
  match cs with
  | '#' :: r =>
    let d6 := r.take 6
    if d6.length = 6 && d6.all isHexDigitChar && hexBoundary (r.drop 6) then
      some (('#') :: d6, r.drop 6)
    else
      let d3 := r.take 3
      if d3.length = 3 && d3.all isHexDigitChar && hexBoundary (r.drop 3) then
        some (('#') :: d3, r.drop 3)
      else none
  | _ => none

/-- The replacement function of the CSS hex catch-all
(lines 387-411 of colorMapper.js). -/
def hexRepl (hexColor : String) (brand : Brand) (mode : String) : String :=
  if shouldPreserve hexColor then hexColor
  else if (getColorRole hexColor).isSome then hexColor
  else
    let accentColor :=
      if mode = ("duo-primary") then brand.primary
      else if mode = ("duo-secondary") then brand.secondary
      else if mode = ("secondary") then brand.secondary
      else brand.primary
    if mode = ("duo-primary") ∨ mode = ("duo-secondary") then
      if isDarkColor hexColor && !isChromatic hexColor then DUOTONE_OUTLINE
      else accentColor
    else if isChromatic hexColor then accentColor
    else hexColor

/-- The hex catch-all pass over a CSS block. -/
def hexCatchPass (brand : Brand) (mode : String) (s : List Char) : List Char :=
  scanAll (fun cs =>
      (matchHex cs).map (fun r => ((hexRepl (String.mk r.1) brand mode).data, r.2)))
    s.length s

/-- The full transformation of one CSS block: every role color replaced as
a case-insensitive literal in table order, then the hex catch-all. -/
def cssTransform (css : List Char) (brand : Brand) (mode : String) (gid : Option String) : List Char :=
  let afterRoles := rolePairs.foldl
    (fun s rc => replaceAllCI rc.2.data (cssRoleReplacement rc.1 brand mode gid).data s) css
  hexCatchPass brand mode afterRoles

/-- Matcher at one position for a tag-block regexp such as
`<style[^>]*>([\s\S]*?)<\/style>` (flags `gi`) or the `<defs>` analogue:
open name case-insensitively, greedy non-`>` run, `>`, lazy content up to
the first case-insensitive closing tag.  Returns the whole matched
original text, the content capture, and the rest. -/
def matchTagBlock (openName closeTag : List Char) (cs : List Char) : Option (List Char × List Char × List Char) :=
  match stripCI openName cs with
  | none => none
  | some (capOpen, r1) =>
    let attrs := r1.takeWhile (fun c => !(c = ('>')))
    match r1.dropWhile (fun c => !(c = ('>'))) with
    | '>' :: r2 =>
      match findSplitCI closeTag r2.length r2 with
      | some (content, capClose, rest) =>
        some (capOpen ++ attrs ++ ('>') :: content ++ capClose, content, rest)
      | none => none
    | _ => none

/-- The `<style>` block pass: the whole matched block has the first literal
occurrence of its content replaced by the transformed CSS
(`match.replace(cssContent, newCss)` in the source). -/
def cssBlockPass (brand : Brand) (mode : String) (gid : Option String) (s : List Char) : List Char :=
  scanAll (fun cs =>
      (matchTagBlock ("<style").data ("</style>").data cs).map (fun r =>
        (replaceFirst r.1 r.2.1 (cssTransform r.2.1 brand mode gid), r.2.2)))
    s.length s

/-- The `<linearGradient>` definition template of recolorSvg, including its
exact newlines and indentation. -/
def gradientDefStr (b : Brand) (gid : String) : List Char :=
  (("\n    <linearGradient id=\"") ++ gid ++
   ("\" x1=\"0%\" y1=\"0%\" x2=\"100%\" y2=\"100%\">\n      <stop offset=\"0%\" style=\"stop-color:") ++
   b.primary ++
   (";stop-opacity:1\" />\n      <stop offset=\"100%\" style=\"stop-color:") ++
   b.secondary ++
   (";stop-opacity:1\" />\n    </linearGradient>")).data

/-- Matcher for the opening-tag regexp `(<svg[^>]*>)` (flag `i`): returns
the matched tag text and the rest. -/
def matchSvgTag (cs : List Char) : Option (List Char × List Char) :=
  match stripCI ("<svg").data cs with
  | none => none
  | some (cap, r1) =>
    let attrs := r1.takeWhile (fun c => !(c = ('>')))
    match r1.dropWhile (fun c => !(c = ('>'))) with
    | '>' :: r2 => some (cap ++ attrs ++ [('>')], r2)
    | _ => none

/-- Gradient setup of recolorSvg: append the definition inside the first
`<defs>` block (rebuilt with a bare lower-case tag), else insert a new
`<defs>` right after the first opening `<svg>` tag, else leave unchanged. -/
def injectGradient (cs : List Char) (b : Brand) (gid : String) : List Char :=
  let gdef := gradientDefStr b gid
  match scanFirstAux (matchTagBlock ("<defs").data ("</defs>").data) cs.length cs with
  | some (before, _, content, rest) =>
    before ++ ("<defs>").data ++ content ++ gdef ++ ("</defs>").data ++ rest
  | none =>
    match scanFirstAux matchSvgTag cs.length cs with
    | some (before, tag, rest) =>
      before ++ tag ++ ("<defs>").data ++ gdef ++ ("</defs>").data ++ rest
    | none => cs

/-- recolorSvg from colorMapper.js.  `brand = none` models a missing
palette argument; `freshId` models the gradient id generated from
`Date.now()` and `Math.random()` (used only in gradient mode). -/
def recolorSvg (svgString : String) (brand : Option Brand) (mode : String) (freshId : String) : String :=
  match brand with
  | none => svgString
  | some b =>
    if svgString = ("") then svgString
    else
      let gid : Option String := if mode = ("gradient") then some freshId else none
      let r1 :=
        if mode = ("gradient") ∧ gidTruthy gid then injectGradient svgString.data b freshId
        else svgString.data
      let r2 := attrPass ("fill") b mode gid r1
      let r3 := attrPass ("stroke") b mode gid r2
      let r4 := attrPass ("stop-color") b mode gid r3
      let r5 := styleAttrPass b mode gid r4
      let r6 := cssBlockPass b mode gid r5
      String.mk r6

/- ------------------------------------------------------------------ -/
/- Concrete palettes used by the scenario-level theorems               -/
/- ------------------------------------------------------------------ -/

/-- The RINVOQ brand preset of the repository (Scenario A palette). -/
def brandRinvoq : Brand := ⟨("#FFD200"), ("#000000"), ("#F5F5F5")⟩

/-- A palette whose colors match no role-table entry. -/
def brandDemo : Brand := ⟨("#FFD200"), ("#0057B8"), ("#F5F5F5")⟩

/-- A palette whose primary is itself a secondary-role table color. -/
def brandCascade : Brand := ⟨("#666"), ("#ABCDEF"), ("#BBBBBB")⟩

/-- The Scenario E palette (duotone). -/
def brandDuo : Brand := ⟨("#000"), ("#FFF"), ("")⟩

/-- The gradient-mode run on a well-formed markup used by the gradient
well-formedness theorem. -/
def gradScenario : String :=
  recolorSvg ("<svg><path fill=\"#000\"/></svg>") (some brandDemo) ("gradient")
    ("gradient-1-a0b1c2d3e")

/-- A markup with an existing `<defs>` block carrying a preserved token as
an attribute of the defs open tag. -/
def defsMarkup : String :=
  ("<svg><defs fill=\"white\"><rect/></defs><path fill=\"#000\"/></svg>")

/-- The gradient-mode run on `defsMarkup` (the existing-`<defs>` injection
branch). -/
def gradScenarioDefs : String :=
  recolorSvg defsMarkup (some brandDemo) ("gradient") ("gradient-1-a0b1c2d3e")

/- ------------------------------------------------------------------ -/
/- Helper lemmas                                                       -/
/- ------------------------------------------------------------------ -/

/-- A run of characters satisfying `p` followed by a failing character is
exactly what `takeWhile`/`dropWhile` split off. -/
theorem spanRunSplit (p : Char → Bool) (v : List Char) (d : Char) (rest : List Char)
    (hv : ∀ c ∈ v, p c = true) (hd : p d = false) :
    (v ++ d :: rest).takeWhile p = v ∧ (v ++ d :: rest).dropWhile p = d :: rest := by
  induction v with
  | nil => simp [List.takeWhile_cons, List.dropWhile_cons, hd]
  | cons c v ih =>
    have hc : p c = true := hv c (by simp)
    have ih2 := ih (fun x hx => hv x (by simp [hx]))
    simp [List.takeWhile_cons, List.dropWhile_cons, hc, ih2.1, ih2.2]

/- ------------------------------------------------------------------ -/
/- Claim theorems                                                      -/
/- ------------------------------------------------------------------ -/

/-- C1 (amended): preserved color tokens (white, #fff, #ffffff, none,
transparent, rgb(255,255,255) up to normalization) are never rewritten at
any color-substitution point of any pass: `replaceColor` — through which
both the attribute passes and the inline-style passes substitute values —
returns a preserved token unchanged under every palette, mode and gradient
id; the CSS hex catch-all returns a preserved token unchanged; no
role-table literal occurs (case-insensitively) inside any preserved token,
so no CSS role-literal match lies within one; and a preserved attribute
value survives a full `recolorSvg` run verbatim.  (The gradient-mode
rebuild of an existing `<defs>` block is not a color substitution: it
drops the open tag's attributes wholesale and can thereby delete a
preserved token — see the counterexample.) -/
theorem C1_preserved_tokens :
    (∀ (color : String) (brand : Brand) (mode : String) (gid : Option String),
       shouldPreserve color = true → replaceColor color brand mode gid = color) ∧
    (∀ (hexColor : String) (brand : Brand) (mode : String),
       shouldPreserve hexColor = true → hexRepl hexColor brand mode = hexColor) ∧
    (rolePairs.all (fun rc => PRESERVED_COLORS.all (fun p => !containsCI p.data rc.2.data)) = true) ∧
    (∀ (brand : Brand) (freshId : String),
       recolorSvg ("<svg><path fill=\"white\"/></svg>") (some brand) ("primary") freshId =
         ("<svg><path fill=\"white\"/></svg>")) := by
  refine ⟨?_, ?_, by decide, ?_⟩
  · intro color brand mode gid h
    simp [replaceColor, h]
  · intro hexColor brand mode h
    simp [hexRepl, h]
  · intro brand freshId
    rfl

/-- C1 witness: the preservation theorem applied to the token `white`. -/
theorem C1_preserved_tokens_w :
    shouldPreserve ("white") = true ∧
    replaceColor ("white") brandRinvoq ("duo-secondary") none = ("white") :=
  ⟨by decide, C1_preserved_tokens.1 ("white") brandRinvoq ("duo-secondary") none (by decide)⟩

/-- C1 counterexample: the claim is not universal over markups.  In
gradient mode the injection step rebuilds the first `<defs ...>` block as
a bare `<defs>` (colorMapper.js lines 316-320), dropping the open tag's
attributes wholesale: a preserved token such as the `fill="white"`
attribute of `<defs fill="white">` is deleted from the output — the input
contains it once and the output contains no occurrence of `white` at all. -/
theorem C1_defs_rebuild_counterexample :
    shouldPreserve ("white") = true ∧
    countSubstr defsMarkup ("fill=\"white\"") = 1 ∧
    countSubstr gradScenarioDefs ("white") = 0 :=
  ⟨by decide, by decide, by decide⟩

/-- C2: every token of the primary role table resolves to `palette.primary`
in standard mode `primary` and to `palette.secondary` in standard mode
`secondary`, and Scenario A holds end to end:
recoloring `<svg><path fill="#000000"/></svg>` with the RINVOQ palette in
`primary` mode produces `fill="#FFD200"`. -/
theorem C2_role_coverage :
    (∀ t ∈ primaryColors, ∀ (brand : Brand),
       replaceColor t brand ("primary") none = brand.primary ∧
       replaceColor t brand ("secondary") none = brand.secondary) ∧
    recolorSvg ("<svg><path fill=\"#000000\"/></svg>") (some brandRinvoq) ("primary") ("") =
      ("<svg><path fill=\"#FFD200\"/></svg>") := by
  constructor
  · intro t ht brand
    fin_cases ht <;> exact ⟨rfl, rfl⟩
  · rfl

/-- C2 witness: the role-coverage theorem applied to `#000`. -/
theorem C2_role_coverage_w :
    (("#000") ∈ primaryColors) ∧
    replaceColor ("#000") brandRinvoq ("primary") none = ("#FFD200") :=
  ⟨by decide, (C2_role_coverage.1 ("#000") (by decide) brandRinvoq).1⟩

/-- C3: under mode `duo-primary`, a nonempty token in no role-table entry
and not preserved resolves to `palette.primary` when chromatic, to the
duotone outline constant `#2D2D2D` when non-chromatic and dark, and to
`palette.primary` in every remaining case. -/
theorem C3_duotone_partition :
    ∀ (color : String) (brand : Brand), color ≠ ("") →
      shouldPreserve color = false → getColorRole color = none →
      (isChromatic color = true →
         replaceColor color brand ("duo-primary") none = brand.primary) ∧
      (isChromatic color = false → isDarkColor color = true →
         replaceColor color brand ("duo-primary") none = DUOTONE_OUTLINE) ∧
      (isChromatic color = false → isDarkColor color = false →
         replaceColor color brand ("duo-primary") none = brand.primary) := by
  intro color brand hne hp hr
  refine ⟨fun h1 => ?_, fun h1 h2 => ?_, fun h1 h2 => ?_⟩ <;>
    simp [replaceColor, hne, hp, duotoneResolve, hr, h1] <;>
    simp [h2]

/-- C3 witness: the duotone partition theorem applied to the chromatic,
unmapped token `#E35724` with the Scenario E palette. -/
theorem C3_duotone_partition_w :
    (("#E35724") ≠ ("")) ∧ shouldPreserve ("#E35724") = false ∧
    getColorRole ("#E35724") = none ∧ isChromatic ("#E35724") = true ∧
    replaceColor ("#E35724") brandDuo ("duo-primary") none = ("#000") :=
  ⟨by decide, by decide, by decide, by decide,
   (C3_duotone_partition ("#E35724") brandDuo (by decide) (by decide) (by decide)).1 (by decide)⟩

/-- C5: recolorSvg is total in the embedding and falls back to the input:
empty markup and missing palette return the markup argument unchanged, and
a nonpreserved, role-less token with no parseable RGB is returned
unchanged by `replaceColor` in every non-duotone mode. -/
theorem C5_totality :
    (∀ (brand : Option Brand) (mode freshId : String),
       recolorSvg ("") brand mode freshId = ("")) ∧
    (∀ (svg mode freshId : String), recolorSvg svg none mode freshId = svg) ∧
    (∀ (color : String) (brand : Brand) (mode : String) (gid : Option String),
       mode ≠ ("duo-primary") → mode ≠ ("duo-secondary") →
       shouldPreserve color = false → getColorRole color = none →
       parseColorToRgb color = none →
       replaceColor color brand mode gid = color) := by
  refine ⟨?_, ?_, ?_⟩
  · intro brand mode freshId
    cases brand <;> rfl
  · intro svg mode freshId
    rfl
  · intro color brand mode gid h1 h2 hp hr hparse
    by_cases hc : color = ("")
    · subst hc; rfl
    · have hchrom : isChromatic color = false := by simp [isChromatic, hparse]
      simp [replaceColor, hc, hp, h1, h2, standardResolve, hr, hchrom]

/-- C5 witness: the totality theorem applied to the unparseable token
`blorp` in standard `primary` mode. -/
theorem C5_totality_w :
    (("primary") ≠ ("duo-primary")) ∧ shouldPreserve ("blorp") = false ∧
    getColorRole ("blorp") = none ∧ parseColorToRgb ("blorp") = none ∧
    replaceColor ("blorp") brandDemo ("primary") none = ("blorp") :=
  ⟨by decide, by decide, by decide, by decide,
   C5_totality.2.2 ("blorp") brandDemo ("primary") none (by decide) (by decide)
     (by decide) (by decide) (by decide)⟩

/-- C4 counterexample: a markup that contains a primary-role token but no
opening `<svg>` tag (and no `<defs>`) gets the `url(#id)` reference
substituted while no `<linearGradient>` definition is injected at all, so
the output does not contain exactly one matching definition and the
emitted reference does not resolve. -/
theorem C4_gradient_counterexample :
    recolorSvg ("<path fill=\"#000\"/>") (some brandDemo) ("gradient") ("gradient-1-a0b1c2d3e") =
      ("<path fill=\"url(#gradient-1-a0b1c2d3e)\"/>") ∧
    countSubstr ("<path fill=\"url(#gradient-1-a0b1c2d3e)\"/>") ("<linearGradient") = 0 ∧
    countSubstr ("<path fill=\"url(#gradient-1-a0b1c2d3e)\"/>") ("url(#gradient-1-a0b1c2d3e)") = 1 :=
  ⟨rfl, rfl, rfl⟩

/-- C4 (amended): under gradient mode the definition is injected only when
the markup has an existing `<defs>` block (the gradient is appended inside
the first one, whose open-tag attributes are dropped) or, failing that, an
opening `<svg>` tag (a new `<defs>` right after it).  On a representative
run of each injection branch — `gradScenario` for the `<svg>`-tag branch
and `gradScenarioDefs` for the existing-`<defs>` branch — the output
contains exactly one `<linearGradient id="X">` with `X` the per-call
generated id, matching the unique `url(#X)` substituted for the
primary-role token, inside exactly one `<defs>` block; with neither a
`<defs>` block nor an `<svg>` tag the reference is emitted and no
definition is injected (see the counterexample). -/
theorem C4_gradient_amended :
    countSubstr gradScenario ("<linearGradient") = 1 ∧
    countSubstr gradScenario ("<linearGradient id=\"gradient-1-a0b1c2d3e\"") = 1 ∧
    countSubstr gradScenario ("url(#gradient-1-a0b1c2d3e)") = 1 ∧
    countSubstr gradScenario ("fill=\"url(#gradient-1-a0b1c2d3e)\"") = 1 ∧
    countSubstr gradScenario ("<defs>") = 1 ∧
    countSubstr gradScenarioDefs ("<linearGradient") = 1 ∧
    countSubstr gradScenarioDefs ("<linearGradient id=\"gradient-1-a0b1c2d3e\"") = 1 ∧
    countSubstr gradScenarioDefs ("url(#gradient-1-a0b1c2d3e)") = 1 ∧
    countSubstr gradScenarioDefs ("fill=\"url(#gradient-1-a0b1c2d3e)\"") = 1 ∧
    countSubstr gradScenarioDefs ("<defs>") = 1 :=
  ⟨by decide, by decide, by decide, by decide, by decide,
   by decide, by decide, by decide, by decide, by decide⟩

/-- C6 counterexample: substitutions in one recolor call do cascade.  With
`palette.primary = #666` (itself a secondary-role table color), the
inline-style `stop-color` pass rewrites `stop-color:#000` to
`stop-color:#666`, and then the later `color` pass of the same call
matches the tail `color:#666` of that freshly inserted text and rewrites
it again to `palette.secondary`, so the full run produces
`stop-color:#ABCDEF` instead of the single-substitution result
`stop-color:#666`. -/
theorem C6_cascade_counterexample :
    recolorSvg ("<svg><path style=\"stop-color:#000\"/></svg>") (some brandCascade) ("primary") ("") =
      ("<svg><path style=\"stop-color:#ABCDEF\"/></svg>") ∧
    replaceColor ("#000") brandCascade ("primary") none = ("#666") ∧
    (("<svg><path style=\"stop-color:#ABCDEF\"/></svg>") ≠
      ("<svg><path style=\"stop-color:#666\"/></svg>")) :=
  ⟨rfl, rfl, by decide⟩

/-- C6 (amended): each individual pattern pass is a single left-to-right
scan with non-overlapping matches whose replacement text is not rescanned
by that same pass — the `stop-color` pass alone maps `stop-color:#000` to
`stop-color:#666` and leaves its own insertion alone — but a later pass of
the same call may match text inserted by an earlier pass: the subsequent
`color` pass rewrites the tail of the rewritten declaration, giving
`stop-color:#ABCDEF`. -/
theorem C6_single_pass_amended :
    String.mk (stylePropPass ("stop-color") brandCascade ("primary") none (("stop-color:#000").data)) =
      ("stop-color:#666") ∧
    processInlineStyle ("stop-color:#000") brandCascade ("primary") none =
      ("stop-color:#ABCDEF") :=
  ⟨rfl, rfl⟩

/-- C7 counterexample: in CSS-block rewriting the role-table literals are
replaced without a right boundary and in list order, so the entry `#000`
consumes only the first four characters of an occurrence of `#000000`: the
style block `.a{fill:#000000}` under standard `primary` mode with
`palette.primary = #FFD200` becomes `.a{fill:#FFD200000}` — the resolved
output followed by the residual digits `000`, not the exact resolved
output. -/
theorem C7_css_residue_counterexample :
    recolorSvg ("<svg><style>.a\x7bfill:#000000\x7d</style></svg>") (some brandDemo) ("primary") ("") =
      ("<svg><style>.a\x7bfill:#FFD200000\x7d</style></svg>") ∧
    countSubstr ("<svg><style>.a\x7bfill:#FFD200000\x7d</style></svg>") ("#FFD200000") = 1 :=
  ⟨rfl, rfl⟩

/-- C7 (amended): CSS-block role colors are replaced as raw
case-insensitive substrings in fixed table order with no boundary
assertion, so a pass may consume only part of a longer token: the entry
`#000`, listed before `#000000`, consumes only the first four characters
of an occurrence of `#000000`, which under standard `primary` mode becomes
`palette.primary` followed by the residual digits `000`; likewise the
earlier `gray` pass rewrites the tail of `lightgray` (whose remainder is
then caught by the hex catch-all, giving `light#FFD200`); the occurrence
`.a{fill:#000}` itself is rewritten to exactly `palette.primary`. -/
theorem C7_css_literal_amended :
    recolorSvg ("<svg><style>.a\x7bfill:#000\x7d</style></svg>") (some brandDemo) ("primary") ("") =
      ("<svg><style>.a\x7bfill:#FFD200\x7d</style></svg>") ∧
    cssTransform (("fill:#000000").data) brandDemo ("primary") none =
      (("fill:#FFD200000").data) ∧
    cssTransform (("fill:lightgray").data) brandDemo ("primary") none =
      (("fill:light#FFD200").data) :=
  ⟨rfl, rfl, rfl⟩

/-- C8 counterexample: the attribute rewriting does not preserve the
original quoting style — a single-quoted `fill` attribute is re-emitted
with double quotes (the replacement template always writes `name="value"`),
so the output of the single-quoted input contains no single quote at all. -/
theorem C8_quote_counterexample :
    recolorSvg ("<svg><path fill=\x27#000\x27/></svg>") (some brandDemo) ("primary") ("") =
      ("<svg><path fill=\"#FFD200\"/></svg>") ∧
    countSubstr ("<svg><path fill=\"#FFD200\"/></svg>") (String.mk [squote]) = 0 :=
  ⟨rfl, rfl⟩

/-- C8 (amended): every rewritten `fill`/`stroke`/`stop-color` attribute is
emitted with double quotes and no whitespace around `=`, regardless of the
original quoting: the single-quoted and the double-quoted input produce
identical double-quoted output. -/
theorem C8_double_quote_amended :
    recolorSvg ("<svg><path fill=\x27#000\x27/></svg>") (some brandDemo) ("primary") ("") =
      recolorSvg ("<svg><path fill=\"#000\"/></svg>") (some brandDemo) ("primary") ("") ∧
    recolorSvg ("<svg><path fill=\"#000\"/></svg>") (some brandDemo) ("primary") ("") =
      ("<svg><path fill=\"#FFD200\"/></svg>") :=
  ⟨rfl, rfl⟩

/-- C9 counterexample: in gradient mode the output embeds the per-call
generated gradient id (built in the source from `Date.now()` and
`Math.random()`, modelled as the `freshId` input), so two invocations on
identical (markup, palette, mode) arguments whose generated ids differ
return different output strings. -/
theorem C9_gradient_counterexample :
    recolorSvg ("<svg><path fill=\"#000\"/></svg>") (some brandDemo) ("gradient") ("gradient-1-a0b1c2d3e") ≠
    recolorSvg ("<svg><path fill=\"#000\"/></svg>") (some brandDemo) ("gradient") ("gradient-2-zzzzzzzzz") := by
  decide

/-- C9 (amended): recolorSvg is deterministic in every non-gradient mode —
the output is a pure function of (markup, palette, mode), independent of
the generated id — and in gradient mode it is deterministic only once the
generated gradient id is fixed. -/
theorem C9_deterministic_amended :
    ∀ (svg : String) (brand : Option Brand) (mode id1 id2 : String),
      mode ≠ ("gradient") →
      recolorSvg svg brand mode id1 = recolorSvg svg brand mode id2 := by
  intro svg brand mode id1 id2 h
  cases brand with
  | none => rfl
  | some b => simp [recolorSvg, h]

/-- C9 witness: the determinism theorem applied in `primary` mode with two
different generator values. -/
theorem C9_deterministic_amended_w :
    (("primary") ≠ ("gradient")) ∧
    recolorSvg ("<svg><path fill=\"#000\"/></svg>") (some brandDemo) ("primary") ("id-a") =
      recolorSvg ("<svg><path fill=\"#000\"/></svg>") (some brandDemo) ("primary") ("id-b") :=
  ⟨by decide,
   C9_deterministic_amended ("<svg><path fill=\"#000\"/></svg>") (some brandDemo) ("primary")
     ("id-a") ("id-b") (by decide)⟩

/-- C10: the attribute pattern has no left-hand boundary.  The quoted
attribute matcher fires on the local text `fill="value"` whatever precedes
it (first conjunct, for every non-quote value), a position where the
matcher fails contributes exactly its first character and the scan moves
on (second conjunct), and concretely the value inside `data-fill="#000000"`
and inside the text content `stroke='#666'` is rewritten exactly as for a
genuine attribute, at the pass level and end to end. -/
theorem C10_no_left_boundary :
    (∀ (c : Char) (v rest : List Char), isQuote c = false →
       (∀ d ∈ v, isQuote d = false) →
       matchNameQuoted (("fill").data) ((("fill=\"").data) ++ (c :: v) ++ (('"') :: rest)) =
         some ((("fill").data), c :: v, rest)) ∧
    (∀ (m : List Char → Option (List Char × List Char)) (fuel : Nat) (c : Char) (cs : List Char),
       m (c :: cs) = none → scanAll m (fuel + 1) (c :: cs) = c :: scanAll m fuel cs) ∧
    (attrPass ("fill") brandDemo ("primary") none (("data-fill=\"#000000\"").data) =
       (("data-fill=\"#FFD200\"").data)) ∧
    recolorSvg ("<svg><path data-fill=\"#000000\"/></svg>") (some brandDemo) ("primary") ("") =
      ("<svg><path data-fill=\"#FFD200\"/></svg>") ∧
    recolorSvg ("<svg><text>stroke=\x27#666\x27 ok</text></svg>") (some brandDemo) ("primary") ("") =
      ("<svg><text>stroke=\"#0057B8\" ok</text></svg>") := by
  refine ⟨?_, ?_, rfl, rfl, rfl⟩
  · intro c v rest hc hv
    have hall : ∀ d ∈ c :: v, (fun x => !isQuote x) d = true := by
      intro d hd
      rcases List.mem_cons.mp hd with h | h
      · subst h; simp [hc]
      · simp [hv d h]
    have hspan := spanRunSplit (fun x => !isQuote x) (c :: v) ('"') rest hall (by decide)
    simp only [List.cons_append] at hspan
    have hstep : (("fill=\"").data) ++ (c :: v) ++ (('"') :: rest) =
        ('f') :: ('i') :: ('l') :: ('l') :: ('=') :: ('"') :: c :: (v ++ (('"') :: rest)) := by
      simp
    rw [hstep]
    simp only [matchNameQuoted, stripCI, Option.map, eq_self_iff_true, if_true,
      List.dropWhile_cons,
      show isJsSpace ('=') = false from rfl,
      show isJsSpace ('"') = false from rfl,
      Bool.false_eq_true, if_false,
      show isQuote ('"') = true from rfl,
      hspan.1, hspan.2,
      List.isEmpty_cons]
  · intro m fuel c cs h
    simp [scanAll, h]

/-- C10 witness: the matcher-locality part applied to the concrete value
`#000000`. -/
theorem C10_no_left_boundary_w :
    isQuote ('#') = false ∧
    matchNameQuoted (("fill").data) ((("fill=\"").data) ++ (('#') :: ("000000").data) ++ (('"') :: [])) =
      some ((("fill").data), ('#') :: ("000000").data, []) :=
  ⟨by decide, C10_no_left_boundary.1 ('#') (("000000").data) [] (by decide) (by decide)⟩
